import Mathlib

/-!
Shallow embedding of the thermal-sizing algorithm of `HEX_sales_tool.py`
(plate air-to-air heat exchanger sizing tool).

The Python script reads nine scalar inputs, computes mass flows, capacity
rates, the effectiveness-limited heat transfer, outlet temperatures, the
log-mean temperature difference (LMTD), the required heat-transfer area and
the plate count, and reports either these results or the single failure
state "Invalid temperature difference".

Numbers are modelled as exact rationals (the Python floats carry rational
input values; every guarded division of the script is reproduced exactly).
The one transcendental operation, `np.log` in the LMTD formula, is modelled
by `Real.log`, so the LMTD value lives in `ℝ`; an undefined LMTD (the
script's NaN sentinel) is modelled as `Option.none`.  The `np.isnan(dT1)`
and `np.isnan(dT2)` disjuncts of the script's guard are vacuous here: a
rational-valued pipeline with all divisions guarded never produces a NaN
temperature difference.
-/

namespace HEX

/-- Specific heat of air, J/(kg K) (`cp = 1005` in the script). -/
def cp : ℚ := 1005

/-- Density of air, kg/m³ (`rho = 1.2` in the script). -/
def rho : ℚ := 6 / 5

/-- Overall heat-transfer coefficient, W/(m² K) (`U = 25.0` in the script). -/
def U : ℚ := 25

/-- The nine scalar inputs of the script (all unconstrained here; each claim
states the domain restrictions it needs).  `Q` is the heat load in watts,
temperatures in °C, flows in m³/h, `eff` the effectiveness fraction,
plate dimensions and gap in metres. -/
structure Inputs where
  Q : ℚ
  T_hot_in : ℚ
  T_cold_in : ℚ
  flow_hot : ℚ
  flow_cold : ℚ
  eff : ℚ
  plate_length : ℚ
  plate_height : ℚ
  plate_gap : ℚ

/-- Mass flow rate from a volumetric flow: `flow/3600 * rho`. -/
def m_dot (flow : ℚ) : ℚ := flow / 3600 * rho

/-- Capacity rate of a stream: `m * cp`. -/
def C_rate (flow : ℚ) : ℚ := m_dot flow * cp

/-- `C_min = min(C_hot, C_cold)`. -/
def C_min (i : Inputs) : ℚ := min (C_rate i.flow_hot) (C_rate i.flow_cold)

/-- Maximum possible heat transfer: `Q_max = C_min * (T_hot_in - T_cold_in)`. -/
def Q_max (i : Inputs) : ℚ := C_min i * (i.T_hot_in - i.T_cold_in)

/-- Realistic heat transfer: `Q_calc = min(Q, eff * Q_max)`. -/
def Q_calc (i : Inputs) : ℚ := min i.Q (i.eff * Q_max i)

/-- Hot outlet temperature:
`T_hot_in - Q_calc/C_hot if C_hot > 0 else T_hot_in`. -/
def T_hot_out (i : Inputs) : ℚ :=
  if 0 < C_rate i.flow_hot then i.T_hot_in - Q_calc i / C_rate i.flow_hot
  else i.T_hot_in

/-- Cold outlet temperature:
`T_cold_in + Q_calc/C_cold if C_cold > 0 else T_cold_in`. -/
def T_cold_out (i : Inputs) : ℚ :=
  if 0 < C_rate i.flow_cold then i.T_cold_in + Q_calc i / C_rate i.flow_cold
  else i.T_cold_in

/-- `dT1 = T_hot_in - T_cold_out`. -/
def dT1 (i : Inputs) : ℚ := i.T_hot_in - T_cold_out i

/-- `dT2 = T_hot_out - T_cold_in`. -/
def dT2 (i : Inputs) : ℚ := T_hot_out i - i.T_cold_in

/-- The LMTD computation of the script on a pair of temperature differences:

    if dT1 == dT2 or dT1 <= 0 or dT2 <= 0 or isnan(dT1) or isnan(dT2):
        LMTD = (dT1 + dT2) / 2 if (dT1 > 0 and dT2 > 0) else nan
    else:
        LMTD = (dT1 - dT2) / log(dT1 / dT2)

`none` models the NaN sentinel; the `isnan` disjuncts are vacuous on ℚ. -/
noncomputable def LMTD (a b : ℚ) : Option ℝ :=
  if a = b ∨ a ≤ 0 ∨ b ≤ 0 then
    if 0 < a ∧ 0 < b then some (((a + b) / 2 : ℚ) : ℝ) else none
  else
    some (((a : ℝ) - (b : ℝ)) / Real.log ((a : ℝ) / (b : ℝ)))

/-- The LMTD of the script evaluated at the computed temperature differences. -/
noncomputable def lmtd (i : Inputs) : Option ℝ := LMTD (dT1 i) (dT2 i)

/-- The reported outcome of one run of the script.  `invalidTempDiff = true`
is the single failure state (the `st.error` branch); `A_req = none` models
the NaN assigned to the area there.  On success `A_req` holds the required
area, `n_plates` the plate count `int(ceil(A_req / A_plate))` and
`stack_depth = n_plates * plate_gap`. -/
structure HEXResult where
  invalidTempDiff : Bool
  A_req : Option ℝ
  n_plates : ℤ
  stack_depth : ℝ

/-- The failure outcome: `A_req = nan; n_plates = 0; stack_depth = 0`. -/
def failResult : HEXResult := ⟨true, none, 0, 0⟩

/-- The whole computation of the script, from inputs to reported outcome:

    if LMTD <= 0 or isnan(LMTD):  -> failure
    else:
        A_req = Q_calc / (U * LMTD)
        A_plate = plate_length * plate_height
        n_plates = int(ceil(A_req / A_plate))
        stack_depth = n_plates * plate_gap

(`NaN <= 0` is false in floating point, so the float guard fires exactly
when LMTD is NaN or a number ≤ 0, which the `match`/`if` below reproduces.) -/
noncomputable def compute (i : Inputs) : HEXResult :=
  match lmtd i with
  | none => failResult
  | some L =>
      if L ≤ 0 then failResult
      else
        let A_req : ℝ := (Q_calc i : ℝ) / ((U : ℝ) * L)
        let n : ℤ := ⌈A_req / ((i.plate_length * i.plate_height : ℚ) : ℝ)⌉
        ⟨false, some A_req, n, (n : ℝ) * ((i.plate_gap : ℚ) : ℝ)⟩

/-- Scenario A of the spec: heat load 5000 W, 60 °C / 30 °C inlets,
1000 m³/h both sides, effectiveness 0.7, plates 0.5 m × 0.3 m at 3 mm gap. -/
def iA : Inputs := ⟨5000, 60, 30, 1000, 1000, 7/10, 1/2, 3/10, 3/1000⟩

/-- Scenario C of the spec: same as scenario A but zero cold-side flow. -/
def iC : Inputs := ⟨5000, 60, 30, 1000, 0, 7/10, 1/2, 3/10, 3/1000⟩

/-- A reversed-temperature input (hot inlet below cold inlet). -/
def iB : Inputs := ⟨5000, 30, 60, 1000, 1000, 7/10, 1/2, 3/10, 3/1000⟩

end HEX

namespace HEX

/-! ### Helper lemmas -/

/-- A defined LMTD forces both temperature differences to be strictly
positive: both branches producing `some` require `0 < a` and `0 < b`. -/
lemma LMTD_some_pos_args {a b : ℚ} {x : ℝ} (h : LMTD a b = some x) :
    0 < a ∧ 0 < b := by
  unfold LMTD at h
  split at h
  · split at h
    · assumption
    · simp at h
  · rename_i hcond
    push_neg at hcond
    exact ⟨hcond.2.1, hcond.2.2⟩

/-- A defined LMTD is strictly positive: the arithmetic mean of two positive
rationals is positive, and `(a-b)/log(a/b)` is positive for positive `a ≠ b`. -/
lemma LMTD_pos {a b : ℚ} {x : ℝ} (h : LMTD a b = some x) : 0 < x := by
  unfold LMTD at h
  split at h
  · split at h
    · rename_i hpos
      obtain ⟨ha, hb⟩ := hpos
      simp only [Option.some.injEq] at h
      subst h
      push_cast
      positivity
    · simp at h
  · rename_i hcond
    push_neg at hcond
    obtain ⟨hne, ha, hb⟩ := hcond
    have ha' : (0:ℝ) < a := by exact_mod_cast ha
    have hb' : (0:ℝ) < b := by exact_mod_cast hb
    simp only [Option.some.injEq] at h
    subst h
    rcases lt_or_gt_of_ne (show (a:ℝ) ≠ b by exact_mod_cast hne) with hlt | hgt
    · apply div_pos_of_neg_of_neg
      · linarith
      · apply Real.log_neg (by positivity)
        rw [div_lt_one hb']
        exact hlt
    · apply div_pos
      · linarith
      · apply Real.log_pos
        rw [lt_div_iff₀ hb']
        linarith

/-- When the LMTD is undefined the run reports the failure outcome. -/
lemma compute_of_none {i : Inputs} (h : lmtd i = none) :
    compute i = failResult := by
  unfold compute
  rw [h]

/-- When the LMTD is defined the run always takes the success branch
(a defined LMTD is positive, so the `LMTD <= 0` test cannot fire). -/
lemma compute_of_some {i : Inputs} {L : ℝ} (h : lmtd i = some L) :
    compute i = ⟨false, some ((Q_calc i : ℝ) / ((U : ℝ) * L)),
      ⌈(Q_calc i : ℝ) / ((U : ℝ) * L) / ((i.plate_length * i.plate_height : ℚ) : ℝ)⌉,
      ((⌈(Q_calc i : ℝ) / ((U : ℝ) * L) / ((i.plate_length * i.plate_height : ℚ) : ℝ)⌉ : ℤ) : ℝ)
        * ((i.plate_gap : ℚ) : ℝ)⟩ := by
  have hL : 0 < L := LMTD_pos h
  unfold compute
  rw [h]
  simp [not_le.mpr hL]

/-- Capacity rates of nonnegative flows are nonnegative. -/
lemma C_rate_nonneg {flow : ℚ} (h : 0 ≤ flow) : 0 ≤ C_rate flow := by
  unfold C_rate m_dot cp rho
  positivity

/-- If the thermodynamic ceiling is negative (which under nonnegative flows
means the hot inlet is below the cold inlet) the second temperature
difference is nonpositive, so the LMTD will be undefined. -/
lemma Qmax_neg_imp_dT2_nonpos {i : Inputs} (hQ : 0 < i.Q)
    (hfh : 0 ≤ i.flow_hot) (hfc : 0 ≤ i.flow_cold)
    (heff0 : 0 < i.eff) (heff1 : i.eff ≤ 1)
    (hneg : Q_max i < 0) : dT2 i ≤ 0 := by
  have hch : 0 ≤ C_rate i.flow_hot := C_rate_nonneg hfh
  have hcc : 0 ≤ C_rate i.flow_cold := C_rate_nonneg hfc
  have hcmin : 0 ≤ C_min i := le_min hch hcc
  have hd : i.T_hot_in - i.T_cold_in < 0 := by
    by_contra hcon
    push_neg at hcon
    unfold Q_max at hneg
    nlinarith
  have hcminpos : 0 < C_min i := by
    rcases lt_or_eq_of_le hcmin with h | h
    · exact h
    · exfalso; unfold Q_max at hneg; rw [← h] at hneg; simp at hneg
  have hchpos : 0 < C_rate i.flow_hot := lt_of_lt_of_le hcminpos (min_le_left _ _)
  have hqcalc : Q_calc i = i.eff * Q_max i := by
    unfold Q_calc
    apply min_eq_right
    nlinarith
  have hcminle : C_min i ≤ C_rate i.flow_hot := min_le_left _ _
  unfold dT2 T_hot_out
  rw [if_pos hchpos, hqcalc]
  unfold Q_max
  have hec : i.eff * C_min i ≤ C_rate i.flow_hot := by nlinarith
  have key : i.T_hot_in - i.T_cold_in
      ≤ i.eff * (C_min i * (i.T_hot_in - i.T_cold_in)) / C_rate i.flow_hot := by
    rw [le_div_iff₀ hchpos]
    nlinarith
  linarith

/-- On any run whose second temperature difference is positive (in
particular on any successful run) the delivered heat is nonnegative. -/
lemma Qcalc_nonneg_of_dT2_pos {i : Inputs} (hQ : 0 < i.Q)
    (hfh : 0 ≤ i.flow_hot) (hfc : 0 ≤ i.flow_cold)
    (heff0 : 0 < i.eff) (heff1 : i.eff ≤ 1)
    (hdt2 : 0 < dT2 i) : 0 ≤ Q_calc i := by
  by_contra hcon
  push_neg at hcon
  have hmin : i.eff * Q_max i < 0 := by
    unfold Q_calc at hcon
    rcases min_lt_iff.mp hcon with h | h
    · linarith
    · exact h
  have hqmax : Q_max i < 0 := by nlinarith
  have := Qmax_neg_imp_dT2_nonpos hQ hfh hfc heff0 heff1 hqmax
  linarith

/-- Concrete evaluation: scenario A has equal positive temperature
differences `1010/67` (balanced flows), so its LMTD is their mean. -/
lemma lmtd_iA : lmtd iA = some (((1010/67 : ℚ)) : ℝ) := by
  unfold lmtd LMTD dT1 dT2 T_hot_out T_cold_out Q_calc Q_max C_min C_rate m_dot cp rho iA
  norm_num

/-- Concrete evaluation: scenario C (zero cold flow) transfers no heat and
has both temperature differences equal to `60 - 30 = 30`. -/
lemma lmtd_iC : lmtd iC = some (((30 : ℚ)) : ℝ) := by
  unfold lmtd LMTD dT1 dT2 T_hot_out T_cold_out Q_calc Q_max C_min C_rate m_dot cp rho iC
  norm_num

/-- Concrete evaluation: the reversed-temperature input yields an undefined
LMTD. -/
lemma lmtd_iB : lmtd iB = none := by
  unfold lmtd LMTD dT1 dT2 T_hot_out T_cold_out Q_calc Q_max C_min C_rate m_dot cp rho iB
  norm_num

/-- Concrete evaluation: scenario A delivers the requested 5000 W
(the effectiveness ceiling is 7035 W). -/
lemma Q_calc_iA : Q_calc iA = 5000 := by
  unfold Q_calc Q_max C_min C_rate m_dot cp rho iA
  norm_num

/-- Concrete evaluation of the whole run on scenario A: LMTD `1010/67` K,
required area `1340/101` m² (≈ 13.27), 89 plates, stack depth 267 mm. -/
lemma compute_iA :
    compute iA = ⟨false, some ((1340/101 : ℚ) : ℝ), 89, ((267/1000 : ℚ) : ℝ)⟩ := by
  rw [compute_of_some lmtd_iA, Q_calc_iA]
  have harea : ((5000 : ℚ) : ℝ) / ((U : ℝ) * ((1010/67 : ℚ) : ℝ)) = ((1340/101 : ℚ) : ℝ) := by
    unfold U
    push_cast
    norm_num
  have hdiv : ((1340/101 : ℚ) : ℝ) / ((iA.plate_length * iA.plate_height : ℚ) : ℝ)
      = ((26800/303 : ℚ) : ℝ) := by
    unfold iA
    push_cast
    norm_num
  have hceil : (⌈((26800/303 : ℚ) : ℝ)⌉ : ℤ) = 89 := by
    rw [Rat.ceil_cast]
    norm_num [Int.ceil_eq_iff]
  rw [harea, hdiv, hceil]
  unfold iA
  push_cast
  norm_num

end HEX

namespace HEX

/-! ### Claim C1 -/

/-- C1 counterexample: scenario C (`cold_flow_m3h = 0`, hot inlet 60 °C above
cold inlet 30 °C) does satisfy the claim's premises — the cold capacity rate
is 0 and the delivered heat is 0 — yet the computation does **not** report the
InvalidTemperatureDifference failure: both temperature differences equal
`60 - 30 = 30 > 0`, the `dT1 == dT2` branch yields the positive arithmetic
mean, and the run succeeds. -/
theorem C1_counterexample :
    C_rate iC.flow_cold = 0 ∧ iC.T_cold_in < iC.T_hot_in ∧ Q_calc iC = 0 ∧
    (compute iC).invalidTempDiff = false := by
  refine ⟨?_, by norm_num [iC], ?_, ?_⟩
  · unfold C_rate m_dot cp rho iC
    norm_num
  · unfold Q_calc Q_max C_min C_rate m_dot cp rho iC
    norm_num
  · rw [compute_of_some lmtd_iC]

/-- C1 (amended): with zero cold-side flow, nonnegative hot-side flow, a
positive heat load and `hot_inlet > cold_inlet`, the cold capacity rate is 0,
both outlet temperatures equal their inlets, `Q_max = 0` and `Q_actual = 0`;
but the result is a **success**, not a failure: the LMTD is defined and equals
`hot_inlet - cold_inlet`, the required area is 0, the plate count is 0 and the
stack extent is 0. -/
theorem C1_zero_flow_side (i : Inputs) (hfc : i.flow_cold = 0)
    (hfh : 0 ≤ i.flow_hot) (hQ : 0 < i.Q) (hT : i.T_cold_in < i.T_hot_in) :
    C_rate i.flow_cold = 0 ∧ T_cold_out i = i.T_cold_in ∧
    T_hot_out i = i.T_hot_in ∧ Q_max i = 0 ∧ Q_calc i = 0 ∧
    lmtd i = some ((i.T_hot_in - i.T_cold_in : ℚ) : ℝ) ∧
    compute i = ⟨false, some 0, 0, 0⟩ := by
  have hcc : C_rate i.flow_cold = 0 := by
    unfold C_rate m_dot
    rw [hfc]
    norm_num
  have hch : 0 ≤ C_rate i.flow_hot := C_rate_nonneg hfh
  have hcmin : C_min i = 0 := by
    unfold C_min
    rw [hcc]
    exact min_eq_right hch
  have hqmax : Q_max i = 0 := by
    unfold Q_max
    rw [hcmin]
    ring
  have hqcalc : Q_calc i = 0 := by
    unfold Q_calc
    rw [hqmax, mul_zero]
    exact min_eq_right (le_of_lt hQ)
  have htc : T_cold_out i = i.T_cold_in := by
    unfold T_cold_out
    rw [hcc]
    simp
  have hth : T_hot_out i = i.T_hot_in := by
    unfold T_hot_out
    rw [hqcalc]
    split <;> simp
  have hdt1 : dT1 i = i.T_hot_in - i.T_cold_in := by
    unfold dT1
    rw [htc]
  have hdt2 : dT2 i = i.T_hot_in - i.T_cold_in := by
    unfold dT2
    rw [hth]
  have hpos : 0 < i.T_hot_in - i.T_cold_in := by linarith
  have hlm : lmtd i = some ((i.T_hot_in - i.T_cold_in : ℚ) : ℝ) := by
    unfold lmtd LMTD
    rw [hdt1, hdt2, if_pos (Or.inl rfl), if_pos ⟨hpos, hpos⟩]
    norm_num
  have hcomp := compute_of_some hlm
  rw [hqcalc] at hcomp
  refine ⟨hcc, htc, hth, hqmax, hqcalc, hlm, ?_⟩
  rw [hcomp]
  norm_num

/-- C1 witness: the amended statement instantiated at scenario C. -/
theorem C1_witness :
    C_rate iC.flow_cold = 0 ∧ T_cold_out iC = iC.T_cold_in ∧
    T_hot_out iC = iC.T_hot_in ∧ Q_max iC = 0 ∧ Q_calc iC = 0 ∧
    lmtd iC = some ((iC.T_hot_in - iC.T_cold_in : ℚ) : ℝ) ∧
    compute iC = ⟨false, some 0, 0, 0⟩ :=
  C1_zero_flow_side iC (by norm_num [iC]) (by norm_num [iC])
    (by norm_num [iC]) (by norm_num [iC])

/-! ### Claim C2 -/

/-- C2: the LMTD computation is exactly the claimed three-way case split:
equal strictly positive differences give the arithmetic mean; distinct
strictly positive differences give `(dT1 - dT2)/ln(dT1/dT2)`; in every case
where the differences are not both strictly positive the result is the
undefined (NaN) sentinel. -/
theorem C2_LMTD_piecewise (a b : ℚ) :
    (a = b → 0 < a → LMTD a b = some (((a + b) / 2 : ℚ) : ℝ)) ∧
    (0 < a → 0 < b → a ≠ b →
      LMTD a b = some (((a : ℝ) - (b : ℝ)) / Real.log ((a : ℝ) / (b : ℝ)))) ∧
    (¬(0 < a ∧ 0 < b) → LMTD a b = none) := by
  refine ⟨?_, ?_, ?_⟩
  · intro hab ha
    unfold LMTD
    rw [if_pos (Or.inl hab), if_pos ⟨ha, hab ▸ ha⟩]
  · intro ha hb hne
    have hcond : ¬(a = b ∨ a ≤ 0 ∨ b ≤ 0) := by
      push_neg
      exact ⟨hne, ha, hb⟩
    unfold LMTD
    rw [if_neg hcond]
  · intro h
    have hcond : a = b ∨ a ≤ 0 ∨ b ≤ 0 := by
      rcases not_and_or.mp h with ha | hb
      · exact Or.inr (Or.inl (le_of_not_lt ha))
      · exact Or.inr (Or.inr (le_of_not_lt hb))
    unfold LMTD
    rw [if_pos hcond, if_neg h]

/-- C2 witness: equal positive differences `5, 5` give the arithmetic mean. -/
theorem C2_witness : LMTD 5 5 = some (((5 + 5) / 2 : ℚ) : ℝ) :=
  (C2_LMTD_piecewise 5 5).1 rfl (by norm_num)

end HEX

namespace HEX

/-! ### Claim C3 -/

/-- C3: the run reports the InvalidTemperatureDifference failure exactly when
the LMTD is undefined or nonpositive, and in that case the reported state is
the failure record — area NaN (`none`), `plate_count = 0`,
`stack_extent_m = 0`.  (The outcome type has a single failure flag, so no
other error kind exists.) -/
theorem C3_failure_gate (i : Inputs) :
    ((compute i).invalidTempDiff = true ↔
      (lmtd i = none ∨ ∃ x, lmtd i = some x ∧ x ≤ 0)) ∧
    ((compute i).invalidTempDiff = true → compute i = failResult) := by
  cases h : lmtd i with
  | none =>
      rw [compute_of_none h]
      exact ⟨⟨fun _ => Or.inl rfl, fun _ => rfl⟩, fun _ => rfl⟩
  | some L =>
      have hL : 0 < L := LMTD_pos h
      rw [compute_of_some h]
      constructor
      · constructor
        · intro hcon
          simp at hcon
        · rintro (hc | ⟨x, hx, hxle⟩)
          · simp at hc
          · rw [Option.some_inj] at hx
            subst hx
            linarith
      · intro hcon
        simp at hcon

/-- C3 witness: the reversed-temperature input satisfies the gate condition
(undefined LMTD) and reports exactly the failure record. -/
theorem C3_witness :
    (compute iB).invalidTempDiff = true ∧ compute iB = failResult := by
  have h2 := (C3_failure_gate iB).2
  have h1 := (C3_failure_gate iB).1.mpr (Or.inl lmtd_iB)
  exact ⟨h1, h2 h1⟩

/-! ### Claim C4 -/

/-- C4: on the valid input domain the delivered heat is
`min(heat_load_w, effectiveness * Q_max)`, hence bounded by the requested
load and by the effectiveness-derated ceiling. -/
theorem C4_actual_transfer (i : Inputs) (_hT : i.T_cold_in < i.T_hot_in)
    (_hQ : 0 < i.Q) (_hfh : 0 ≤ i.flow_hot) (_hfc : 0 ≤ i.flow_cold)
    (_heff0 : 0 < i.eff) (_heff1 : i.eff ≤ 1) :
    Q_calc i = min i.Q (i.eff * Q_max i) ∧ Q_calc i ≤ i.Q ∧
    Q_calc i ≤ i.eff * Q_max i :=
  ⟨rfl, min_le_left _ _, min_le_right _ _⟩

/-- C4 witness: the bound instantiated at scenario A. -/
theorem C4_witness :
    Q_calc iA = min iA.Q (iA.eff * Q_max iA) ∧ Q_calc iA ≤ iA.Q ∧
    Q_calc iA ≤ iA.eff * Q_max iA :=
  C4_actual_transfer iA (by norm_num [iA]) (by norm_num [iA]) (by norm_num [iA])
    (by norm_num [iA]) (by norm_num [iA]) (by norm_num [iA])

/-! ### Claim C6 -/

/-- C6: any input whose hot outlet temperature lands at or below the cold
inlet makes `dT2 ≤ 0`, so the LMTD is the undefined sentinel and the run
reports the InvalidTemperatureDifference failure record (no crash, and no
negative area — the failure carries no area at all). -/
theorem C6_temperature_cross (i : Inputs) (h : T_hot_out i ≤ i.T_cold_in) :
    compute i = failResult := by
  have hdt2 : dT2 i ≤ 0 := by
    unfold dT2
    linarith
  have hlm : lmtd i = none := by
    unfold lmtd LMTD
    rw [if_pos (Or.inr (Or.inr hdt2)),
      if_neg (fun hcon => absurd hcon.2 (not_lt.mpr hdt2))]
  exact compute_of_none hlm

/-- C6 witness: the reversed-temperature input drives the hot outlet to
51 °C, below its 60 °C cold inlet, and the run fails. -/
theorem C6_witness : compute iB = failResult :=
  C6_temperature_cross iB
    (by unfold T_hot_out Q_calc Q_max C_min C_rate m_dot cp rho iB; norm_num)

/-! ### Claim C7 -/

/-- C7: energy balance, exactly (the rational model carries no rounding):
whenever a stream's capacity rate is nonzero (on the nonnegative-flow
domain), capacity rate times that stream's temperature change equals the
delivered heat. -/
theorem C7_energy_balance (i : Inputs) :
    (0 ≤ i.flow_hot → C_rate i.flow_hot ≠ 0 →
      C_rate i.flow_hot * (i.T_hot_in - T_hot_out i) = Q_calc i) ∧
    (0 ≤ i.flow_cold → C_rate i.flow_cold ≠ 0 →
      C_rate i.flow_cold * (T_cold_out i - i.T_cold_in) = Q_calc i) := by
  constructor
  · intro hf hne
    have hpos : 0 < C_rate i.flow_hot :=
      lt_of_le_of_ne (C_rate_nonneg hf) (Ne.symm hne)
    unfold T_hot_out
    rw [if_pos hpos]
    field_simp
  · intro hf hne
    have hpos : 0 < C_rate i.flow_cold :=
      lt_of_le_of_ne (C_rate_nonneg hf) (Ne.symm hne)
    unfold T_cold_out
    rw [if_pos hpos]
    field_simp
    ring

/-- C7 witness: the balance instantiated at scenario A on both sides. -/
theorem C7_witness :
    C_rate iA.flow_hot * (iA.T_hot_in - T_hot_out iA) = Q_calc iA ∧
    C_rate iA.flow_cold * (T_cold_out iA - iA.T_cold_in) = Q_calc iA :=
  ⟨(C7_energy_balance iA).1 (by norm_num [iA])
      (by norm_num [C_rate, m_dot, cp, rho, iA]),
   (C7_energy_balance iA).2 (by norm_num [iA])
      (by norm_num [C_rate, m_dot, cp, rho, iA])⟩

/-! ### Claim C8 -/

/-- C8: in both outcomes the reported stack extent equals the plate count
times the plate gap exactly (in the failure record both are zero). -/
theorem C8_stack_extent (i : Inputs) :
    (compute i).stack_depth =
      ((compute i).n_plates : ℝ) * ((i.plate_gap : ℚ) : ℝ) := by
  cases h : lmtd i with
  | none =>
      rw [compute_of_none h]
      simp [failResult]
  | some L =>
      rw [compute_of_some h]

/-! ### Claim C9 -/

/-- C9: a defined LMTD is strictly positive (both defining branches require
both temperature differences strictly positive), so the `LMTD <= 0` arm of
the gate never fires on a defined LMTD and the run fails exactly when the
LMTD is the undefined sentinel. -/
theorem C9_defined_LMTD_positive (i : Inputs) :
    (∀ x : ℝ, lmtd i = some x → 0 < x) ∧
    ((compute i).invalidTempDiff = true ↔ lmtd i = none) := by
  constructor
  · intro x hx
    exact LMTD_pos hx
  · cases h : lmtd i with
    | none =>
        rw [compute_of_none h]
        simp [failResult]
    | some L =>
        rw [compute_of_some h]
        simp

/-- C9 witness: scenario C has the defined LMTD `30`, which is positive. -/
theorem C9_witness :
    lmtd iC = some ((30 : ℚ) : ℝ) ∧ (0:ℝ) < ((30 : ℚ) : ℝ) :=
  ⟨lmtd_iC, (C9_defined_LMTD_positive iC).1 _ lmtd_iC⟩

end HEX

namespace HEX

/-! ### Claim C5 -/

/-- C5: on the valid input domain the plate count is a nonnegative integer;
it is zero exactly when the run fails or the required area is nonpositive;
and on success the plate count is the ceiling of the required area
`Q_actual / (U * LMTD)` (with `U = 25`) over the plate face area. -/
theorem C5_plate_count (i : Inputs) (hQ : 0 < i.Q) (hfh : 0 ≤ i.flow_hot)
    (hfc : 0 ≤ i.flow_cold) (heff0 : 0 < i.eff) (heff1 : i.eff ≤ 1)
    (hpl : 0 < i.plate_length) (hph : 0 < i.plate_height) :
    0 ≤ (compute i).n_plates ∧
    ((compute i).n_plates = 0 ↔ (compute i).invalidTempDiff = true ∨
      ∃ A : ℝ, (compute i).A_req = some A ∧ A ≤ 0) ∧
    ((compute i).invalidTempDiff = false → ∃ L : ℝ, lmtd i = some L ∧
      (compute i).A_req = some ((Q_calc i : ℝ) / ((U : ℝ) * L)) ∧
      (compute i).n_plates =
        ⌈(Q_calc i : ℝ) / ((U : ℝ) * L) /
          ((i.plate_length * i.plate_height : ℚ) : ℝ)⌉) := by
  cases h : lmtd i with
  | none =>
      rw [compute_of_none h]
      refine ⟨le_refl 0, ⟨fun _ => Or.inl rfl, fun _ => rfl⟩, fun hcon => ?_⟩
      simp [failResult] at hcon
  | some L =>
      have hL : 0 < L := LMTD_pos h
      have hdt := LMTD_some_pos_args h
      have hqc : 0 ≤ Q_calc i := Qcalc_nonneg_of_dT2_pos hQ hfh hfc heff0 heff1 hdt.2
      have hU : (0:ℝ) < ((U : ℚ) : ℝ) := by
        unfold U
        norm_num
      have hA0 : 0 ≤ (Q_calc i : ℝ) / ((U : ℝ) * L) :=
        div_nonneg (by exact_mod_cast hqc) (le_of_lt (mul_pos hU hL))
      have hap : (0:ℝ) < ((i.plate_length * i.plate_height : ℚ) : ℝ) := by
        exact_mod_cast mul_pos hpl hph
      have hdiv0 : 0 ≤ (Q_calc i : ℝ) / ((U : ℝ) * L) /
          ((i.plate_length * i.plate_height : ℚ) : ℝ) :=
        div_nonneg hA0 (le_of_lt hap)
      rw [compute_of_some h]
      refine ⟨Int.ceil_nonneg hdiv0, ⟨?_, ?_⟩, fun _ => ⟨L, rfl, rfl, rfl⟩⟩
      · intro h0
        right
        refine ⟨(Q_calc i : ℝ) / ((U : ℝ) * L), rfl, ?_⟩
        have hmem := (Int.ceil_eq_zero_iff.mp h0).2
        by_contra hc
        push_neg at hc
        have hgt : 0 < (Q_calc i : ℝ) / ((U : ℝ) * L) /
            ((i.plate_length * i.plate_height : ℚ) : ℝ) := div_pos hc hap
        linarith
      · rintro (hc | ⟨x, hx, hxle⟩)
        · simp at hc
        · rw [Option.some_inj] at hx
          rw [← hx] at hxle
          have hAeq : (Q_calc i : ℝ) / ((U : ℝ) * L) = 0 := le_antisymm hxle hA0
          show (⌈(Q_calc i : ℝ) / ((U : ℝ) * L) /
            ((i.plate_length * i.plate_height : ℚ) : ℝ)⌉ : ℤ) = 0
          rw [hAeq, zero_div, Int.ceil_zero]

/-- C5 witness: the statement instantiated at scenario A. -/
theorem C5_witness :
    0 ≤ (compute iA).n_plates ∧
    ((compute iA).n_plates = 0 ↔ (compute iA).invalidTempDiff = true ∨
      ∃ A : ℝ, (compute iA).A_req = some A ∧ A ≤ 0) ∧
    ((compute iA).invalidTempDiff = false → ∃ L : ℝ, lmtd iA = some L ∧
      (compute iA).A_req = some ((Q_calc iA : ℝ) / ((U : ℝ) * L)) ∧
      (compute iA).n_plates =
        ⌈(Q_calc iA : ℝ) / ((U : ℝ) * L) /
          ((iA.plate_length * iA.plate_height : ℚ) : ℝ)⌉) :=
  C5_plate_count iA (by norm_num [iA]) (by norm_num [iA]) (by norm_num [iA])
    (by norm_num [iA]) (by norm_num [iA]) (by norm_num [iA]) (by norm_num [iA])

/-! ### Claim C10 -/

/-- C10: on the valid input domain both outlet temperatures stay inside the
closed interval spanned by the two inlet temperatures — the streams never
cross their inlet bounds. -/
theorem C10_outlet_bounds (i : Inputs) (hQ : 0 < i.Q)
    (hT : i.T_cold_in < i.T_hot_in) (hfh : 0 ≤ i.flow_hot)
    (hfc : 0 ≤ i.flow_cold) (heff0 : 0 < i.eff) (heff1 : i.eff ≤ 1) :
    T_hot_out i ≤ i.T_hot_in ∧ i.T_cold_in ≤ T_cold_out i ∧
    i.T_cold_in ≤ T_hot_out i ∧ T_cold_out i ≤ i.T_hot_in := by
  have hch : 0 ≤ C_rate i.flow_hot := C_rate_nonneg hfh
  have hcc : 0 ≤ C_rate i.flow_cold := C_rate_nonneg hfc
  have hcmin : 0 ≤ C_min i := le_min hch hcc
  have hqmax : 0 ≤ Q_max i := by
    unfold Q_max
    nlinarith
  have hqc0 : 0 ≤ Q_calc i := by
    unfold Q_calc
    exact le_min (le_of_lt hQ) (by nlinarith)
  have hqcmax : Q_calc i ≤ C_min i * (i.T_hot_in - i.T_cold_in) := by
    have h1 : Q_calc i ≤ i.eff * Q_max i := min_le_right _ _
    have h2 : i.eff * Q_max i ≤ Q_max i := by nlinarith
    unfold Q_max at h1 h2
    linarith
  refine ⟨?_, ?_, ?_, ?_⟩
  · unfold T_hot_out
    split
    · rename_i hpos
      have : 0 ≤ Q_calc i / C_rate i.flow_hot := div_nonneg hqc0 (le_of_lt hpos)
      linarith
    · linarith
  · unfold T_cold_out
    split
    · rename_i hpos
      have : 0 ≤ Q_calc i / C_rate i.flow_cold := div_nonneg hqc0 (le_of_lt hpos)
      linarith
    · linarith
  · unfold T_hot_out
    split
    · rename_i hpos
      have hle : Q_calc i / C_rate i.flow_hot ≤ i.T_hot_in - i.T_cold_in := by
        rw [div_le_iff₀ hpos]
        have : C_min i ≤ C_rate i.flow_hot := min_le_left _ _
        nlinarith
      linarith
    · linarith
  · unfold T_cold_out
    split
    · rename_i hpos
      have hle : Q_calc i / C_rate i.flow_cold ≤ i.T_hot_in - i.T_cold_in := by
        rw [div_le_iff₀ hpos]
        have : C_min i ≤ C_rate i.flow_cold := min_le_right _ _
        nlinarith
      linarith
    · linarith

/-- C10 witness: the bounds instantiated at scenario A. -/
theorem C10_witness :
    T_hot_out iA ≤ iA.T_hot_in ∧ iA.T_cold_in ≤ T_cold_out iA ∧
    iA.T_cold_in ≤ T_hot_out iA ∧ T_cold_out iA ≤ iA.T_hot_in :=
  C10_outlet_bounds iA (by norm_num [iA]) (by norm_num [iA]) (by norm_num [iA])
    (by norm_num [iA]) (by norm_num [iA]) (by norm_num [iA])

end HEX
